import Mathlib

/-!
Shallow embedding of the nova-psm-jup swap-quoting adapter.

The repository has two source files:
  * `src/amm/nova_psm_amm.rs` — the `NovaPsmAmm` pool adapter (construction
    from a keyed account, reserve refresh, quoting, constant capability flags);
  * `src/math/swap_curve_info.rs` — `get_swap_curve_result`, which resolves the
    optional timestamp, invokes the external curve, and packages the result.

External crates (`nova_psm`'s curve, `spl_token`'s account unpacking, the
Solana `Clock` sysvar, `jupiter_amm_interface`'s account map) appear as
abstract parameters: the curve is a function field of `SwapCurve`, the two
unpackers are function arguments, and the clock is an explicit
`Except String Int` input.  Machine integers are `Nat` with explicit
`% 2 ^ 128` where u128 arithmetic may wrap and explicit `< 2 ^ 64` bounds for
the `try_into` conversions.  Errors are `Except String`.
-/

/-- 2^64, the size of the u64 range. -/
def u64Size : Nat := 2 ^ 64

/-- 2^128, the size of the u128 range. -/
def u128Size : Nat := 2 ^ 128

/-- `u128::try_from` / `TryInto<u64>` on a u128 value: succeeds exactly when the
value fits in 64 bits, returning it unchanged (never saturates). -/
def u128_try_into_u64 (x : Nat) : Except String Nat :=
  if x < u64Size then Except.ok x else Except.error "out of range integral type conversion attempted"

/-- The Rust cast `i64 as u128`: sign-extend to 128 bits and reinterpret,
i.e. reduce modulo 2^128. -/
def i64_as_u128 (x : Int) : Nat :=
  (x % (u128Size : Int)).toNat

/-- Solana public keys, modelled as plain identifiers. -/
abbrev Pubkey := Nat

/-- Trade direction (`nova_psm::curve::calculator::TradeDirection`):
which of the two pool assets is being sold into the pool. -/
inductive TradeDirection where
  | aToB
  | bToA
deriving DecidableEq, Repr

/-- Curve family tags (`nova_psm::curve::base::CurveType`).  The adapter only
distinguishes `redemptionRateCurve` from everything else. -/
inductive CurveType where
  | constantProduct
  | constantPrice
  | stable
  | offset
  | redemptionRateCurve
deriving DecidableEq, Repr

/-- Fee schedule (`nova_psm::curve::fees::Fees`), the four components this
repository reads: trade fee and owner trade fee, each a numerator/denominator
pair of u64 values. -/
structure Fees where
  trade_fee_numerator : Nat
  trade_fee_denominator : Nat
  owner_trade_fee_numerator : Nat
  owner_trade_fee_denominator : Nat
deriving DecidableEq, Repr

/-- Result of the external curve's `swap` (`nova_psm::curve::calculator`):
all fields are u128 magnitudes. -/
structure CurveResult where
  new_swap_source_amount : Nat
  new_swap_destination_amount : Nat
  source_amount_swapped : Nat
  destination_amount_swapped : Nat
  trade_fee : Nat
  owner_fee : Nat
deriving DecidableEq, Repr

/-- `nova_psm::curve::base::SwapCurve`: a curve-type tag together with the
behavior of the externally implemented calculator, carried as a function
(the shallow embedding of the boxed dynamic `CurveCalculator`). -/
structure SwapCurve where
  curve_type : CurveType
  swap : Nat → Nat → Nat → TradeDirection → Fees → Option Nat → Except String CurveResult

/-- Modelled from the spec: `crate::math::fees::Fees` (the repository file
`src/math/fees.rs` is not under `src/`).  Four fixed-point fee components as
numerator/denominator pairs. -/
structure MathFees where
  trade_fee_numerator : Nat
  trade_fee_denominator : Nat
  owner_trade_fee_numerator : Nat
  owner_trade_fee_denominator : Nat
deriving DecidableEq, Repr

/-- Modelled from the spec: `crate::math::fees::Fees::new`, the plain
four-field constructor used by `get_swap_curve_result`. -/
def MathFees.new (a b c d : Nat) : MathFees :=
  ⟨a, b, c, d⟩

/-- Modelled from the spec: `crate::math::fees::Fees::fee_pct` (file not under
`src/`).  Per the spec, the fee percentage is
(tradeFeeNumerator + ownerFeeNumerator) / tradeFeeDenominator, a rational for
display only; it fails when the schedule is unusable (zero denominator). -/
def MathFees.fee_pct (f : MathFees) : Except String Rat :=
  if f.trade_fee_denominator = 0 then
    Except.error "failed to get fee pct"
  else
    Except.ok (((f.trade_fee_numerator : Rat) + (f.owner_trade_fee_numerator : Rat)) / (f.trade_fee_denominator : Rat))

/-- Modelled from the spec: `crate::math::token_swap::SwapResult` (file not
under `src/`): input amount consumed, output amount produced, total fee amount,
and the display-only fee percentage. -/
structure SwapResult where
  expected_output_amount : Nat
  fees : Nat
  input_amount : Nat
  fee_pct : Rat
deriving DecidableEq, Repr

/-- Tail of `get_swap_curve_result` (src/math/swap_curve_info.rs lines 35-49):
rebuild the math-fee view, compute the display percentage, and package the
curve result; the total fee is the u128 sum `trade_fee + owner_fee`. -/
def finish_swap_result (fees : Fees) (curve_result : CurveResult) : Except String SwapResult := do
  let mfees := MathFees.new fees.trade_fee_numerator fees.trade_fee_denominator
    fees.owner_trade_fee_numerator fees.owner_trade_fee_denominator
  let fee_pct ← mfees.fee_pct
  Except.ok
    { expected_output_amount := curve_result.destination_amount_swapped
      fees := (curve_result.trade_fee + curve_result.owner_fee) % u128Size
      input_amount := curve_result.source_amount_swapped
      fee_pct := fee_pct }

/-- `get_swap_curve_result` (src/math/swap_curve_info.rs): chooses the
timestamp from the Solana `Clock` sysvar for the redemption-rate curve (and
`none` for every other variant), invokes the curve, and packages the result.
The clock fetch `Clock::get()` is the explicit `clock` argument. -/
def get_swap_curve_result (clock : Except String Int) (swap_curve : SwapCurve)
    (amount : Nat) (swap_source_amount : Nat) (swap_destination_amount : Nat)
    (trade_direction : TradeDirection) (fees : Fees) : Except String SwapResult := do
  let timestamp_opt : Option Nat ←
    match swap_curve.curve_type with
    | CurveType.redemptionRateCurve => do
        let c ← clock
        pure (some (i64_as_u128 c))
    | _ => pure none
  let curve_result ← swap_curve.swap amount swap_source_amount swap_destination_amount
    trade_direction fees timestamp_opt
  finish_swap_result fees curve_result

/-- Token-account view from `spl_token::state::Account`: only the balance is
read by this repository. -/
structure TokenAccount where
  amount : Nat
deriving DecidableEq, Repr

/-- Raw account bytes. -/
abbrev AccountData := List Nat

/-- `jupiter_amm_interface::AccountMap`: accounts indexed by public key. -/
abbrev AccountMap := Pubkey → Option AccountData

/-- `jupiter_amm_interface::try_get_account_data`: look the key up in the map,
failing when it is absent. -/
def try_get_account_data (account_map : AccountMap) (key : Pubkey) : Except String AccountData :=
  match account_map key with
  | some d => Except.ok d
  | none => Except.error "could not find account data"

/-- Decoded pool state (`nova_psm::state::SwapV1`). -/
structure SwapV1 where
  is_initialized : Bool
  bump_seed : Nat
  token_program_id : Pubkey
  token_a : Pubkey
  token_b : Pubkey
  pool_mint : Pubkey
  token_a_mint : Pubkey
  token_b_mint : Pubkey
  pool_fee_account : Pubkey
  fees : Fees
  swap_curve : SwapCurve

/-- `jupiter_amm_interface::KeyedAccount`, the fields this repository reads:
the account's key, raw data and owning program. -/
structure KeyedAccount where
  key : Pubkey
  data : AccountData
  owner : Pubkey

/-- Quote request (`jupiter_amm_interface::QuoteParams`), the fields this
repository reads plus the requested output mint. -/
structure QuoteParams where
  amount : Nat
  input_mint : Pubkey
  output_mint : Pubkey

/-- Quote (`jupiter_amm_interface::Quote`), the fields this repository fills
(the rest stay at their defaults). -/
structure Quote where
  fee_pct : Rat
  in_amount : Nat
  out_amount : Nat
  fee_amount : Nat
  fee_mint : Pubkey
deriving DecidableEq, Repr

/-- The adapter state (`NovaPsmAmm`): pool key, label, decoded pool state, the
two reserve mints, the cached reserve balances (u128 each), and the program id. -/
structure NovaPsmAmm where
  key : Pubkey
  label : String
  state : SwapV1
  reserve_mints : Pubkey × Pubkey
  reserves : Nat × Nat
  program_id : Pubkey

/-- The constant adapter label. -/
def NOVA_PSM_LABEL : String := "NOVA PSM"

/-- `NovaPsmAmm::from_keyed_account`: unpack `SwapV1` from the account data
(skipping the first byte), record the two mints, and start with zero reserves
(`Default::default()` for `[u128; 2]`).  The external `SwapV1::unpack` is the
`unpackSwapV1` argument. -/
def NovaPsmAmm.from_keyed_account (unpackSwapV1 : AccountData → Except String SwapV1)
    (keyed_account : KeyedAccount) : Except String NovaPsmAmm := do
  let state ← unpackSwapV1 (keyed_account.data.drop 1)
  let reserve_mints := (state.token_a_mint, state.token_b_mint)
  Except.ok
    { key := keyed_account.key
      label := NOVA_PSM_LABEL
      state := state
      reserve_mints := reserve_mints
      reserves := (0, 0)
      program_id := keyed_account.owner }

/-- `NovaPsmAmm::update`: fetch and unpack both reserve token accounts (A then
B), then overwrite both cached balances at once.  The external
`TokenAccount::unpack` is the `unpackToken` argument; the returned adapter is
the post-call `self`. -/
def NovaPsmAmm.update (unpackToken : AccountData → Except String TokenAccount)
    (amm : NovaPsmAmm) (account_map : AccountMap) : Except String NovaPsmAmm := do
  let token_a_account ← try_get_account_data account_map amm.state.token_a
  let token_a_token_account ← unpackToken token_a_account
  let token_b_account ← try_get_account_data account_map amm.state.token_b
  let token_b_token_account ← unpackToken token_b_account
  Except.ok { amm with reserves := (token_a_token_account.amount, token_b_token_account.amount) }

/-- The direction-resolution step at the head of `NovaPsmAmm::quote`
(lines 116-121): input mint equal to mint A selects AtoB with source reserve A
and destination reserve B; anything else selects BtoA with source reserve B and
destination reserve A. -/
def NovaPsmAmm.resolve (amm : NovaPsmAmm) (quote_params : QuoteParams) :
    TradeDirection × Nat × Nat :=
  if quote_params.input_mint = amm.reserve_mints.1 then
    (TradeDirection.aToB, amm.reserves.1, amm.reserves.2)
  else
    (TradeDirection.bToA, amm.reserves.2, amm.reserves.1)

/-- The packaging tail of `NovaPsmAmm::quote` (lines 132-139): convert the
three u128 quantities to u64 via `try_into` (in, out, fee in that order) and
fill the `Quote`, whose fee mint is the request's input mint. -/
def quote_from_swap_result (swap_result : SwapResult) (fee_mint : Pubkey) :
    Except String Quote := do
  let in_amount ← u128_try_into_u64 swap_result.input_amount
  let out_amount ← u128_try_into_u64 swap_result.expected_output_amount
  let fee_amount ← u128_try_into_u64 swap_result.fees
  Except.ok
    { fee_pct := swap_result.fee_pct
      in_amount := in_amount
      out_amount := out_amount
      fee_amount := fee_amount
      fee_mint := fee_mint }

/-- `NovaPsmAmm::quote`: resolve the direction, evaluate the curve through
`get_swap_curve_result` on the cached reserves, and package the quote. -/
def NovaPsmAmm.quote (clock : Except String Int) (amm : NovaPsmAmm)
    (quote_params : QuoteParams) : Except String Quote := do
  let tds := amm.resolve quote_params
  let swap_result ← get_swap_curve_result clock amm.state.swap_curve quote_params.amount
    tds.2.1 tds.2.2 tds.1 amm.state.fees
  quote_from_swap_result swap_result quote_params.input_mint

/-- `NovaPsmAmm::has_dynamic_accounts`: constant `false`. -/
def NovaPsmAmm.has_dynamic_accounts (_amm : NovaPsmAmm) : Bool := false

/-- `NovaPsmAmm::supports_exact_out`: constant `false`. -/
def NovaPsmAmm.supports_exact_out (_amm : NovaPsmAmm) : Bool := false

/-- `NovaPsmAmm::get_accounts_to_update`: the two reserve token accounts. -/
def NovaPsmAmm.get_accounts_to_update (amm : NovaPsmAmm) : List Pubkey :=
  [amm.state.token_a, amm.state.token_b]

/-! ### Concrete fixtures used by counterexamples and witnesses -/

/-- A concrete constant-product-tagged curve behavior: consumes the whole
input, quotes 90% of it out, and charges fees 3 (trade) and 1 (owner). -/
def cpCurve : SwapCurve where
  curve_type := CurveType.constantProduct
  swap := fun amount s d _td _fees _ts =>
    Except.ok
      { new_swap_source_amount := s + amount
        new_swap_destination_amount := d - amount * 9 / 10
        source_amount_swapped := amount
        destination_amount_swapped := amount * 9 / 10
        trade_fee := 3
        owner_fee := 1 }

/-- A concrete redemption-rate-tagged curve behavior whose produced output
equals the timestamp it was handed (0 when handed none), making the timestamp
plumbing observable in the quote. -/
def rrCurve : SwapCurve where
  curve_type := CurveType.redemptionRateCurve
  swap := fun amount s _d _td _fees ts =>
    Except.ok
      { new_swap_source_amount := s + amount
        new_swap_destination_amount := 0
        source_amount_swapped := amount
        destination_amount_swapped := ts.getD 0
        trade_fee := 0
        owner_fee := 0 }

/-- A concrete fee schedule: 0.30% trade fee, 0.05% owner fee. -/
def testFees : Fees :=
  { trade_fee_numerator := 30
    trade_fee_denominator := 10000
    owner_trade_fee_numerator := 5
    owner_trade_fee_denominator := 10000 }

/-- Concrete pool state around a given curve: mints 1 and 2, reserve token
accounts 11 and 12. -/
def mkState (curve : SwapCurve) : SwapV1 :=
  { is_initialized := true
    bump_seed := 255
    token_program_id := 20
    token_a := 11
    token_b := 12
    pool_mint := 13
    token_a_mint := 1
    token_b_mint := 2
    pool_fee_account := 14
    fees := testFees
    swap_curve := curve }

/-- Concrete adapter over the constant-product fixture with cached reserves
(1000000, 2000000). -/
def cpAmm : NovaPsmAmm :=
  { key := 5
    label := NOVA_PSM_LABEL
    state := mkState cpCurve
    reserve_mints := (1, 2)
    reserves := (1000000, 2000000)
    program_id := 9 }

/-- Concrete adapter over the redemption-rate fixture. -/
def rrAmm : NovaPsmAmm :=
  { key := 6
    label := NOVA_PSM_LABEL
    state := mkState rrCurve
    reserve_mints := (1, 2)
    reserves := (1000000, 2000000)
    program_id := 9 }

/-- Monetary fields of a quote outcome (`none` when the quote failed).  The
display-only rational fee percentage is deliberately not projected, so that
concrete outcomes reduce without normalizing rationals. -/
def quoteFields : Except String Quote → Option (Nat × Nat × Nat × Pubkey)
  | Except.ok q => some (q.in_amount, q.out_amount, q.fee_amount, q.fee_mint)
  | Except.error _ => none

/-- Monetary fields of a curve-evaluation outcome (`none` on failure). -/
def swapResultFields : Except String SwapResult → Option (Nat × Nat × Nat)
  | Except.ok sr => some (sr.input_amount, sr.expected_output_amount, sr.fees)
  | Except.error _ => none

/-! ### Shared lemmas -/

/-- The packaging tail fills the quote's fee mint with its `fee_mint`
argument whenever it succeeds. -/
theorem quote_from_swap_result_fee_mint (sr : SwapResult) (m : Pubkey) (q : Quote)
    (h : quote_from_swap_result sr m = Except.ok q) : q.fee_mint = m := by
  unfold quote_from_swap_result at h
  cases hin : u128_try_into_u64 sr.input_amount with
  | error e => simp [hin, Bind.bind, Except.bind] at h
  | ok a =>
    cases hout : u128_try_into_u64 sr.expected_output_amount with
    | error e => simp [hin, hout, Bind.bind, Except.bind] at h
    | ok b =>
      cases hfee : u128_try_into_u64 sr.fees with
      | error e => simp [hin, hout, hfee, Bind.bind, Except.bind] at h
      | ok c =>
        simp [hin, hout, hfee, Bind.bind, Except.bind] at h
        simp [← h]

/-! ### Claims -/

/-- C1: the claim says a quote whose input mint matches neither pool mint
fails with `UnknownAsset`.  Counterexample: on the concrete constant-product
pool with mints 1 and 2, a request with input mint 99 — matching neither —
still succeeds and returns a quote. -/
theorem C1_counterexample :
    quoteFields (NovaPsmAmm.quote (Except.ok 0) cpAmm
      { amount := 1000, input_mint := 99, output_mint := 2 }) = some (1000, 900, 4, 99)
    ∧ (99 : Pubkey) ≠ cpAmm.reserve_mints.1 ∧ (99 : Pubkey) ≠ cpAmm.reserve_mints.2 :=
  ⟨rfl, by decide, by decide⟩

/-- C1 (amended): a trade request whose input mint matches neither pool mint
is not rejected with `UnknownAsset`; `quote` treats it exactly like a B-to-A
trade, evaluating the curve with source reserve B and destination reserve A. -/
theorem C1_amended_unknown_mint_treated_as_BtoA (clock : Except String Int)
    (amm : NovaPsmAmm) (qp : QuoteParams)
    (h1 : qp.input_mint ≠ amm.reserve_mints.1) (_h2 : qp.input_mint ≠ amm.reserve_mints.2) :
    NovaPsmAmm.quote clock amm qp =
      (get_swap_curve_result clock amm.state.swap_curve qp.amount
          amm.reserves.2 amm.reserves.1 TradeDirection.bToA amm.state.fees) >>=
        fun sr => quote_from_swap_result sr qp.input_mint := by
  unfold NovaPsmAmm.quote NovaPsmAmm.resolve
  simp [h1]

/-- C1 witness: the amended statement applied to the concrete pool and the
unknown input mint 99. -/
theorem C1_amended_witness :
    NovaPsmAmm.quote (Except.ok 0) cpAmm { amount := 1000, input_mint := 99, output_mint := 2 } =
      (get_swap_curve_result (Except.ok 0) cpAmm.state.swap_curve 1000
          cpAmm.reserves.2 cpAmm.reserves.1 TradeDirection.bToA cpAmm.state.fees) >>=
        fun sr => quote_from_swap_result sr 99 :=
  C1_amended_unknown_mint_treated_as_BtoA (Except.ok 0) cpAmm
    { amount := 1000, input_mint := 99, output_mint := 2 } (by decide) (by decide)

/-- C2: the claim says the quote's fee asset identifier equals the output
(destination) asset.  Counterexample: on the concrete pool, a successful
A-to-B quote (input mint 1, output asset mint 2) carries fee mint 1 — the
input asset, not the output asset. -/
theorem C2_counterexample :
    quoteFields (NovaPsmAmm.quote (Except.ok 0) cpAmm
      { amount := 1000, input_mint := 1, output_mint := 2 }) = some (1000, 900, 4, 1)
    ∧ (1 : Pubkey) ≠ cpAmm.state.token_b_mint :=
  ⟨rfl, by decide⟩

/-- C2 (amended): for every successful quote, the fee asset identifier equals
the input (source) asset of the trade, not the output asset. -/
theorem C2_amended_fee_mint_is_input_mint (clock : Except String Int)
    (amm : NovaPsmAmm) (qp : QuoteParams) (q : Quote)
    (h : NovaPsmAmm.quote clock amm qp = Except.ok q) : q.fee_mint = qp.input_mint := by
  unfold NovaPsmAmm.quote at h
  cases hg : get_swap_curve_result clock amm.state.swap_curve qp.amount
      (amm.resolve qp).2.1 (amm.resolve qp).2.2 (amm.resolve qp).1 amm.state.fees with
  | error e => simp [hg, Bind.bind, Except.bind] at h
  | ok sr =>
    simp [hg, Bind.bind, Except.bind] at h
    exact quote_from_swap_result_fee_mint sr qp.input_mint q h

/-- C2 witness: the amended statement applied to the concrete successful
A-to-B quote. -/
theorem C2_amended_witness :
    ∃ q : Quote, NovaPsmAmm.quote (Except.ok 0) cpAmm
      { amount := 1000, input_mint := 1, output_mint := 2 } = Except.ok q
      ∧ q.fee_mint = 1 := by
  cases hq : NovaPsmAmm.quote (Except.ok 0) cpAmm
      { amount := 1000, input_mint := 1, output_mint := 2 } with
  | error e =>
    have hnone : quoteFields (NovaPsmAmm.quote (Except.ok 0) cpAmm
        { amount := 1000, input_mint := 1, output_mint := 2 }) = none := by
      rw [hq]
      rfl
    exact absurd hnone (by decide)
  | ok q =>
    exact ⟨q, rfl, C2_amended_fee_mint_is_input_mint (Except.ok 0) cpAmm
      { amount := 1000, input_mint := 1, output_mint := 2 } q hq⟩

/-- C8: for every adapter state, exact-output quoting support and the
dynamic-account-set flag are both reported as `false`. -/
theorem C8_constant_flags (amm : NovaPsmAmm) :
    NovaPsmAmm.supports_exact_out amm = false ∧ NovaPsmAmm.has_dynamic_accounts amm = false :=
  ⟨rfl, rfl⟩

/-- A concrete reserve-account unpacker for witnesses: a single-element byte
list is a balance, anything else is malformed. -/
def testUnpackToken : AccountData → Except String TokenAccount
  | [a] => Except.ok { amount := a }
  | _ => Except.error "invalid account data"

/-- A concrete account map for witnesses: reserve account 11 holds balance 5,
reserve account 12 holds balance 7. -/
def testAccountMap : AccountMap := fun k =>
  if k = 11 then some [5] else if k = 12 then some [7] else none

/-- A concrete pool-state unpacker for witnesses. -/
def testUnpackSwapV1 : AccountData → Except String SwapV1 :=
  fun _ => Except.ok (mkState cpCurve)

/-- Characterization of a successful `update`: it returns `ok` exactly when
both reserve accounts are found and unpacked, and then the new adapter is the
old one with both cached reserves overwritten at once. -/
theorem update_ok_iff (unpackToken : AccountData → Except String TokenAccount)
    (amm : NovaPsmAmm) (account_map : AccountMap) (amm' : NovaPsmAmm) :
    NovaPsmAmm.update unpackToken amm account_map = Except.ok amm' ↔
      ∃ ta tb : TokenAccount,
        (try_get_account_data account_map amm.state.token_a >>= unpackToken) = Except.ok ta ∧
        (try_get_account_data account_map amm.state.token_b >>= unpackToken) = Except.ok tb ∧
        amm' = { amm with reserves := (ta.amount, tb.amount) } := by
  unfold NovaPsmAmm.update
  cases h1 : try_get_account_data account_map amm.state.token_a with
  | error e => simp [h1, Bind.bind, Except.bind]
  | ok da =>
    cases h2 : unpackToken da with
    | error e => simp [h1, h2, Bind.bind, Except.bind]
    | ok ta =>
      cases h3 : try_get_account_data account_map amm.state.token_b with
      | error e => simp [h1, h2, h3, Bind.bind, Except.bind]
      | ok db =>
        cases h4 : unpackToken db with
        | error e => simp [h1, h2, h3, h4, Bind.bind, Except.bind]
        | ok tb =>
          simp only [h1, h2, h3, h4, Bind.bind, Except.bind, Except.ok.injEq]
          constructor
          · intro h
            exact ⟨ta, tb, rfl, rfl, h.symm⟩
          · rintro ⟨ta', tb', hta, htb, h⟩
            cases hta
            cases htb
            exact h.symm

/-- C3: `update` is all-or-nothing — it succeeds exactly when both reserve
accounts are found and decoded, and then both cached reserve balances are
overwritten in a single assignment; any decode failure yields an error and no
updated adapter. -/
theorem C3_update_atomic (unpackToken : AccountData → Except String TokenAccount)
    (amm : NovaPsmAmm) (account_map : AccountMap) (amm' : NovaPsmAmm) :
    NovaPsmAmm.update unpackToken amm account_map = Except.ok amm' ↔
      ∃ ta tb : TokenAccount,
        (try_get_account_data account_map amm.state.token_a >>= unpackToken) = Except.ok ta ∧
        (try_get_account_data account_map amm.state.token_b >>= unpackToken) = Except.ok tb ∧
        amm' = { amm with reserves := (ta.amount, tb.amount) } :=
  update_ok_iff unpackToken amm account_map amm'

/-- C3 witness: the concrete refresh on the constant-product fixture installs
exactly the balances (5, 7) of the two reserve accounts. -/
theorem C3_witness :
    NovaPsmAmm.update testUnpackToken cpAmm testAccountMap =
      Except.ok { cpAmm with reserves := (5, 7) } :=
  (C3_update_atomic testUnpackToken cpAmm testAccountMap
      { cpAmm with reserves := (5, 7) }).mpr
    ⟨{ amount := 5 }, { amount := 7 }, rfl, rfl, rfl⟩

/-- C10: a successful `update` changes nothing but the cached reserve
snapshot — key, label, decoded pool state, reserve-mint pair and program id
are all preserved. -/
theorem C10_update_frame (unpackToken : AccountData → Except String TokenAccount)
    (amm : NovaPsmAmm) (account_map : AccountMap) (amm' : NovaPsmAmm)
    (h : NovaPsmAmm.update unpackToken amm account_map = Except.ok amm') :
    amm'.key = amm.key ∧ amm'.label = amm.label ∧ amm'.state = amm.state ∧
      amm'.reserve_mints = amm.reserve_mints ∧ amm'.program_id = amm.program_id := by
  rcases (update_ok_iff unpackToken amm account_map amm').mp h with ⟨ta, tb, _, _, rfl⟩
  exact ⟨rfl, rfl, rfl, rfl, rfl⟩

/-- C10 witness: the frame condition applied to the concrete refresh of the
redemption-rate fixture. -/
theorem C10_witness :
    ({ rrAmm with reserves := (5, 7) } : NovaPsmAmm).key = rrAmm.key ∧
    ({ rrAmm with reserves := (5, 7) } : NovaPsmAmm).label = rrAmm.label ∧
    ({ rrAmm with reserves := (5, 7) } : NovaPsmAmm).state = rrAmm.state ∧
    ({ rrAmm with reserves := (5, 7) } : NovaPsmAmm).reserve_mints = rrAmm.reserve_mints ∧
    ({ rrAmm with reserves := (5, 7) } : NovaPsmAmm).program_id = rrAmm.program_id :=
  C10_update_frame testUnpackToken rrAmm testAccountMap { rrAmm with reserves := (5, 7) } rfl

/-- C9: a freshly constructed adapter caches zero for both reserve balances,
so a quote issued before the first refresh resolves its source and destination
reserves to (0, 0) whichever direction is picked. -/
theorem C9_initial_reserves_zero (unpackSwapV1 : AccountData → Except String SwapV1)
    (ka : KeyedAccount) (st : SwapV1)
    (h : unpackSwapV1 (ka.data.drop 1) = Except.ok st) :
    ∃ amm, NovaPsmAmm.from_keyed_account unpackSwapV1 ka = Except.ok amm ∧
      amm.reserves = (0, 0) ∧
      ∀ qp : QuoteParams, (amm.resolve qp).2.1 = 0 ∧ (amm.resolve qp).2.2 = 0 := by
  refine ⟨⟨ka.key, NOVA_PSM_LABEL, st, (st.token_a_mint, st.token_b_mint), (0, 0), ka.owner⟩,
    ?_, rfl, ?_⟩
  · unfold NovaPsmAmm.from_keyed_account
    simp only [h, Bind.bind, Except.bind]
  · intro qp
    unfold NovaPsmAmm.resolve
    by_cases hm : qp.input_mint = st.token_a_mint <;> simp [hm]

/-- C9 witness: the property applied to a concrete keyed account that unpacks
successfully. -/
theorem C9_witness :
    ∃ amm, NovaPsmAmm.from_keyed_account testUnpackSwapV1
        { key := 5, data := [0], owner := 9 } = Except.ok amm ∧
      amm.reserves = (0, 0) ∧
      ∀ qp : QuoteParams, (amm.resolve qp).2.1 = 0 ∧ (amm.resolve qp).2.2 = 0 :=
  C9_initial_reserves_zero testUnpackSwapV1 { key := 5, data := [0], owner := 9 }
    (mkState cpCurve) rfl

/-- Eliminating a successful `Except` bind into its two successful stages. -/
theorem except_bind_ok {α β : Type} {x : Except String α} {f : α → Except String β} {b : β}
    (h : (x >>= f) = Except.ok b) : ∃ a, x = Except.ok a ∧ f a = Except.ok b := by
  cases x with
  | error e => simp [Bind.bind, Except.bind] at h
  | ok a => exact ⟨a, rfl, by simpa [Bind.bind, Except.bind] using h⟩

/-- On the redemption-rate variant, `get_swap_curve_result` reads the clock
and hands the curve `some` of its value cast to u128 (propagating a clock
failure); it never consults the request for a timestamp. -/
theorem gscr_rr_eq (clock : Except String Int) (curve : SwapCurve)
    (amount s d : Nat) (td : TradeDirection) (fees : Fees)
    (h : curve.curve_type = CurveType.redemptionRateCurve) :
    get_swap_curve_result clock curve amount s d td fees =
      clock >>= fun c =>
        curve.swap amount s d td fees (some (i64_as_u128 c)) >>= finish_swap_result fees := by
  unfold get_swap_curve_result
  rw [h]
  cases clock <;> simp [Bind.bind, Except.bind, Pure.pure, Except.pure]

/-- On every non-redemption-rate variant, `get_swap_curve_result` passes the
curve no timestamp and never touches the clock. -/
theorem gscr_non_rr_eq (clock : Except String Int) (curve : SwapCurve)
    (amount s d : Nat) (td : TradeDirection) (fees : Fees)
    (h : curve.curve_type ≠ CurveType.redemptionRateCurve) :
    get_swap_curve_result clock curve amount s d td fees =
      curve.swap amount s d td fees none >>= finish_swap_result fees := by
  unfold get_swap_curve_result
  cases hc : curve.curve_type with
  | redemptionRateCurve => exact absurd hc h
  | constantProduct => simp [Bind.bind, Except.bind, Pure.pure, Except.pure]
  | constantPrice => simp [Bind.bind, Except.bind, Pure.pure, Except.pure]
  | stable => simp [Bind.bind, Except.bind, Pure.pure, Except.pure]
  | offset => simp [Bind.bind, Except.bind, Pure.pure, Except.pure]

/-- A successful packaging step pins the three monetary fields of the
`SwapResult` to the curve result's fields (the fee being the u128 sum). -/
theorem finish_swap_result_ok_shape (fees : Fees) (cr : CurveResult) (sr : SwapResult)
    (h : finish_swap_result fees cr = Except.ok sr) :
    sr.expected_output_amount = cr.destination_amount_swapped ∧
      sr.input_amount = cr.source_amount_swapped ∧
      sr.fees = (cr.trade_fee + cr.owner_fee) % u128Size := by
  unfold finish_swap_result at h
  obtain ⟨p, _, hq⟩ := except_bind_ok h
  simp only [Except.ok.injEq] at hq
  subst hq
  exact ⟨rfl, rfl, rfl⟩

/-- A successful curve evaluation decomposes into a successful timestamp
resolution, a successful curve `swap`, and the packaging of that curve
result's fields. -/
theorem gscr_ok_shape (clock : Except String Int) (curve : SwapCurve)
    (amount s d : Nat) (td : TradeDirection) (fees : Fees) (sr : SwapResult)
    (h : get_swap_curve_result clock curve amount s d td fees = Except.ok sr) :
    ∃ ts cr, curve.swap amount s d td fees ts = Except.ok cr ∧
      sr.expected_output_amount = cr.destination_amount_swapped ∧
      sr.input_amount = cr.source_amount_swapped ∧
      sr.fees = (cr.trade_fee + cr.owner_fee) % u128Size := by
  by_cases hc : curve.curve_type = CurveType.redemptionRateCurve
  · rw [gscr_rr_eq clock curve amount s d td fees hc] at h
    obtain ⟨c, _, h2⟩ := except_bind_ok h
    obtain ⟨cr, hsw, h3⟩ := except_bind_ok h2
    exact ⟨some (i64_as_u128 c), cr, hsw, finish_swap_result_ok_shape fees cr sr h3⟩
  · rw [gscr_non_rr_eq clock curve amount s d td fees hc] at h
    obtain ⟨cr, hsw, h3⟩ := except_bind_ok h
    exact ⟨none, cr, hsw, finish_swap_result_ok_shape fees cr sr h3⟩

/-- C4: the claim says the redemption-rate timestamp is taken from the trade
request and that a request without one fails with `MissingTimestamp`.
Counterexample: against the concrete redemption-rate pool, whose curve echoes
the timestamp it receives as its output, a request (which has no timestamp
field at all) succeeds, and the quoted output is 42 — the clock-sysvar
reading, not anything in the request. -/
theorem C4_counterexample :
    quoteFields (NovaPsmAmm.quote (Except.ok 42) rrAmm
      { amount := 1000, input_mint := 1, output_mint := 2 }) = some (1000, 42, 0, 1) ∧
      rrAmm.state.swap_curve.curve_type = CurveType.redemptionRateCurve :=
  ⟨rfl, rfl⟩

/-- C4 (amended): for the redemption-rate variant the present timestamp is
read from the Solana Clock sysvar — an environment input, not the trade
request — with a clock failure propagated as the quote error; every other
variant receives no timestamp and never consults the clock. -/
theorem C4_amended_timestamp_from_clock (clock : Except String Int) (curve : SwapCurve)
    (amount s d : Nat) (td : TradeDirection) (fees : Fees) :
    (curve.curve_type = CurveType.redemptionRateCurve →
      get_swap_curve_result clock curve amount s d td fees =
        clock >>= fun c =>
          curve.swap amount s d td fees (some (i64_as_u128 c)) >>= finish_swap_result fees) ∧
    (curve.curve_type ≠ CurveType.redemptionRateCurve →
      get_swap_curve_result clock curve amount s d td fees =
        curve.swap amount s d td fees none >>= finish_swap_result fees) :=
  ⟨gscr_rr_eq clock curve amount s d td fees, gscr_non_rr_eq clock curve amount s d td fees⟩

/-- C4 witness: the amended statement applied to the concrete redemption-rate
curve with clock reading 42. -/
theorem C4_amended_witness :
    get_swap_curve_result (Except.ok 42) rrCurve 5 10 20 TradeDirection.aToB testFees =
      (Except.ok 42 : Except String Int) >>= fun c =>
        rrCurve.swap 5 10 20 TradeDirection.aToB testFees (some (i64_as_u128 c)) >>=
          finish_swap_result testFees :=
  (C4_amended_timestamp_from_clock (Except.ok 42) rrCurve 5 10 20
    TradeDirection.aToB testFees).1 rfl

/-- C5: direction is resolved by comparing the request's input mint to the
pool's mints: equal to mint A gives AtoB with source reserve A and destination
reserve B; equal to mint B (the mints being distinct) gives BtoA with source
reserve B and destination reserve A — and the curve evaluation is invoked with
exactly those cached amounts. -/
theorem C5_direction_selection (clock : Except String Int) (amm : NovaPsmAmm)
    (qp : QuoteParams) :
    (qp.input_mint = amm.reserve_mints.1 →
      NovaPsmAmm.quote clock amm qp =
        get_swap_curve_result clock amm.state.swap_curve qp.amount
            amm.reserves.1 amm.reserves.2 TradeDirection.aToB amm.state.fees >>=
          fun sr => quote_from_swap_result sr qp.input_mint) ∧
    (amm.reserve_mints.1 ≠ amm.reserve_mints.2 → qp.input_mint = amm.reserve_mints.2 →
      NovaPsmAmm.quote clock amm qp =
        get_swap_curve_result clock amm.state.swap_curve qp.amount
            amm.reserves.2 amm.reserves.1 TradeDirection.bToA amm.state.fees >>=
          fun sr => quote_from_swap_result sr qp.input_mint) := by
  constructor
  · intro h
    unfold NovaPsmAmm.quote NovaPsmAmm.resolve
    simp [h]
  · intro hne h
    unfold NovaPsmAmm.quote NovaPsmAmm.resolve
    have hnm : qp.input_mint ≠ amm.reserve_mints.1 := by
      rw [h]
      exact Ne.symm hne
    simp [hnm]

/-- C5 witness: the A-to-B half applied to the concrete pool with input
mint A. -/
theorem C5_witness :
    NovaPsmAmm.quote (Except.ok 0) cpAmm { amount := 7, input_mint := 1, output_mint := 2 } =
      get_swap_curve_result (Except.ok 0) cpAmm.state.swap_curve 7
          cpAmm.reserves.1 cpAmm.reserves.2 TradeDirection.aToB cpAmm.state.fees >>=
        fun sr => quote_from_swap_result sr 1 :=
  (C5_direction_selection (Except.ok 0) cpAmm
    { amount := 7, input_mint := 1, output_mint := 2 }).1 rfl

/-- C6: a successful curve evaluation packages the curve's output exactly —
input = the source amount the curve consumed, output = the destination amount
it produced, and (absent u128 wraparound) total fee = trade fee + owner fee. -/
theorem C6_packaging (clock : Except String Int) (curve : SwapCurve)
    (amount s d : Nat) (td : TradeDirection) (fees : Fees) (sr : SwapResult)
    (h : get_swap_curve_result clock curve amount s d td fees = Except.ok sr) :
    ∃ ts cr, curve.swap amount s d td fees ts = Except.ok cr ∧
      sr.input_amount = cr.source_amount_swapped ∧
      sr.expected_output_amount = cr.destination_amount_swapped ∧
      (cr.trade_fee + cr.owner_fee < u128Size → sr.fees = cr.trade_fee + cr.owner_fee) := by
  obtain ⟨ts, cr, hsw, h1, h2, h3⟩ := gscr_ok_shape clock curve amount s d td fees sr h
  refine ⟨ts, cr, hsw, h2, h1, fun hlt => ?_⟩
  rw [h3, Nat.mod_eq_of_lt hlt]

/-- The swap result of a fixed successful concrete curve evaluation, used to
instantiate C6. -/
def srC6 : SwapResult :=
  (get_swap_curve_result (Except.ok 0) cpCurve 1000 100 200
    TradeDirection.aToB testFees).toOption.getD ⟨0, 0, 0, 0⟩

/-- C6 witness: the packaging property applied to the concrete successful
evaluation whose result is `srC6`. -/
theorem C6_witness :
    ∃ ts cr, cpCurve.swap 1000 100 200 TradeDirection.aToB testFees ts = Except.ok cr ∧
      srC6.input_amount = cr.source_amount_swapped ∧
      srC6.expected_output_amount = cr.destination_amount_swapped ∧
      (cr.trade_fee + cr.owner_fee < u128Size → srC6.fees = cr.trade_fee + cr.owner_fee) :=
  C6_packaging (Except.ok 0) cpCurve 1000 100 200 TradeDirection.aToB testFees srC6 rfl

/-- Characterization of the packaging tail: it succeeds exactly when all three
u128 quantities fit in u64, and then the quote's fields equal them exactly. -/
theorem qfsr_ok_iff (sr : SwapResult) (m : Pubkey) (q : Quote) :
    quote_from_swap_result sr m = Except.ok q ↔
      sr.input_amount < u64Size ∧ sr.expected_output_amount < u64Size ∧ sr.fees < u64Size ∧
        q = ⟨sr.fee_pct, sr.input_amount, sr.expected_output_amount, sr.fees, m⟩ := by
  unfold quote_from_swap_result u128_try_into_u64
  by_cases h1 : sr.input_amount < u64Size <;>
    by_cases h2 : sr.expected_output_amount < u64Size <;>
    by_cases h3 : sr.fees < u64Size <;>
    simp [h1, h2, h3, Bind.bind, Except.bind, eq_comm]

/-- When any of the three u128 quantities exceeds the u64 range, the packaging
tail fails. -/
theorem qfsr_error_of_oversize (sr : SwapResult) (m : Pubkey)
    (hbad : ¬(sr.input_amount < u64Size ∧ sr.expected_output_amount < u64Size ∧
      sr.fees < u64Size)) :
    ∃ e, quote_from_swap_result sr m = Except.error e := by
  unfold quote_from_swap_result u128_try_into_u64
  by_cases h1 : sr.input_amount < u64Size
  · by_cases h2 : sr.expected_output_amount < u64Size
    · by_cases h3 : sr.fees < u64Size
      · exact absurd ⟨h1, h2, h3⟩ hbad
      · exact ⟨"out of range integral type conversion attempted",
          by simp [h1, h2, h3, Bind.bind, Except.bind]⟩
    · exact ⟨"out of range integral type conversion attempted",
        by simp [h1, h2, Bind.bind, Except.bind]⟩
  · exact ⟨"out of range integral type conversion attempted",
      by simp [h1, Bind.bind, Except.bind]⟩

/-- C7: the quote never silently saturates or truncates — every returned
quote's u64 amounts equal the curve evaluation's u128 amounts exactly (so each
fits in u64), and whenever any of the three amounts exceeds the u64 range the
quote is an error and no quote value is produced. -/
theorem C7_no_silent_truncation (clock : Except String Int) (amm : NovaPsmAmm)
    (qp : QuoteParams) :
    (∀ q : Quote, NovaPsmAmm.quote clock amm qp = Except.ok q →
      ∃ sr, get_swap_curve_result clock amm.state.swap_curve qp.amount
          (amm.resolve qp).2.1 (amm.resolve qp).2.2 (amm.resolve qp).1 amm.state.fees =
          Except.ok sr ∧
        q.in_amount = sr.input_amount ∧ q.out_amount = sr.expected_output_amount ∧
        q.fee_amount = sr.fees ∧ sr.input_amount < u64Size ∧
        sr.expected_output_amount < u64Size ∧ sr.fees < u64Size) ∧
    (∀ sr, get_swap_curve_result clock amm.state.swap_curve qp.amount
        (amm.resolve qp).2.1 (amm.resolve qp).2.2 (amm.resolve qp).1 amm.state.fees =
        Except.ok sr →
      ¬(sr.input_amount < u64Size ∧ sr.expected_output_amount < u64Size ∧
        sr.fees < u64Size) →
      ∃ e, NovaPsmAmm.quote clock amm qp = Except.error e) := by
  constructor
  · intro q hq
    unfold NovaPsmAmm.quote at hq
    cases hg : get_swap_curve_result clock amm.state.swap_curve qp.amount
        (amm.resolve qp).2.1 (amm.resolve qp).2.2 (amm.resolve qp).1 amm.state.fees with
    | error e => simp [hg, Bind.bind, Except.bind] at hq
    | ok sr =>
      simp only [hg, Bind.bind, Except.bind] at hq
      obtain ⟨h1, h2, h3, hq'⟩ := (qfsr_ok_iff sr qp.input_mint q).mp hq
      subst hq'
      exact ⟨sr, rfl, rfl, rfl, rfl, h1, h2, h3⟩
  · intro sr hsr hbad
    unfold NovaPsmAmm.quote
    simp only [hsr, Bind.bind, Except.bind]
    exact qfsr_error_of_oversize sr qp.input_mint hbad

/-- The quote of a fixed successful concrete request, used to instantiate C7. -/
def qC7 : Quote :=
  (NovaPsmAmm.quote (Except.ok 0) cpAmm
    { amount := 500, input_mint := 1, output_mint := 2 }).toOption.getD ⟨0, 0, 0, 0, 0⟩

/-- C7 witness: the exactness half applied to the concrete successful quote
`qC7`. -/
theorem C7_witness :
    ∃ sr, get_swap_curve_result (Except.ok 0) cpAmm.state.swap_curve 500
        (cpAmm.resolve { amount := 500, input_mint := 1, output_mint := 2 }).2.1
        (cpAmm.resolve { amount := 500, input_mint := 1, output_mint := 2 }).2.2
        (cpAmm.resolve { amount := 500, input_mint := 1, output_mint := 2 }).1
        cpAmm.state.fees = Except.ok sr ∧
      qC7.in_amount = sr.input_amount ∧ qC7.out_amount = sr.expected_output_amount ∧
      qC7.fee_amount = sr.fees ∧ sr.input_amount < u64Size ∧
      sr.expected_output_amount < u64Size ∧ sr.fees < u64Size :=
  (C7_no_silent_truncation (Except.ok 0) cpAmm
    { amount := 500, input_mint := 1, output_mint := 2 }).1 qC7 rfl
